import Mathlib

/-!
Shallow embedding of the GHOST NETWORK simulation engine
(src/simulation/engine.js together with the static tables of
src/data/models.js).

Modelling conventions:
* JavaScript numbers are modelled by `JsNum`: either an exact rational
  (every literal in the data tables is an exact decimal), NaN, or a signed
  infinity.  Arithmetic on `JsNum` follows the IEEE semantics JavaScript
  uses: multiplying by an `undefined` property read gives NaN, dividing a
  positive finite value by zero gives +Infinity, and so on.
* JavaScript objects whose fields may be `undefined` are modelled with
  `Option`; a property read that feeds arithmetic goes through `optNum`,
  which turns `undefined` into NaN.
* The mutable `SimulationEngine` object is modelled as a state value that
  the method embeddings take and return explicitly.  A method that can
  throw returns `Except JsError _`; `compareDatacenters`, which mutates
  the state before it can throw, also returns the state at the point the
  exception escapes.
* The Haversine distance (`calculateDistance`) is real-valued and is
  embedded over `ℝ`; it feeds only the narrative strings of the result
  bundle, so the computable part of `runSimulation` carries everything
  except the distance number and the narrative text.
-/

namespace GhostNetwork

/-- IEEE-style JavaScript number: an exact finite value, NaN, +Infinity or
-Infinity.  Finite values are exact rationals, since every numeric literal
in the data tables is a decimal fraction. -/
inductive JsNum where
  | num (q : ℚ)
  | nan
  | inf
  | ninf
deriving DecidableEq, Repr

/-- JavaScript multiplication. -/
def jsMul : JsNum → JsNum → JsNum
  | .nan, _ => .nan
  | _, .nan => .nan
  | .num a, .num b => .num (a * b)
  | .inf, .num b => if 0 < b then .inf else if b < 0 then .ninf else .nan
  | .num a, .inf => if 0 < a then .inf else if a < 0 then .ninf else .nan
  | .ninf, .num b => if 0 < b then .ninf else if b < 0 then .inf else .nan
  | .num a, .ninf => if 0 < a then .ninf else if a < 0 then .inf else .nan
  | .inf, .inf => .inf
  | .inf, .ninf => .ninf
  | .ninf, .inf => .ninf
  | .ninf, .ninf => .inf

/-- JavaScript subtraction. -/
def jsSub : JsNum → JsNum → JsNum
  | .nan, _ => .nan
  | _, .nan => .nan
  | .num a, .num b => .num (a - b)
  | .inf, .inf => .nan
  | .ninf, .ninf => .nan
  | .inf, _ => .inf
  | .ninf, _ => .ninf
  | .num _, .inf => .ninf
  | .num _, .ninf => .inf

/-- JavaScript division (positive zero only, which is the only zero the
engine produces). -/
def jsDiv : JsNum → JsNum → JsNum
  | .nan, _ => .nan
  | _, .nan => .nan
  | .num a, .num b =>
      if b = 0 then (if a = 0 then .nan else if 0 < a then .inf else .ninf)
      else .num (a / b)
  | .inf, .num b => if b < 0 then .ninf else .inf
  | .ninf, .num b => if b < 0 then .inf else .ninf
  | .num _, .inf => .num 0
  | .num _, .ninf => .num 0
  | .inf, .inf => .nan
  | .inf, .ninf => .nan
  | .ninf, .inf => .nan
  | .ninf, .ninf => .nan

/-- JavaScript strict greater-than comparison; every comparison with NaN is
false. -/
def jsGt : JsNum → JsNum → Bool
  | .nan, _ => false
  | _, .nan => false
  | .num a, .num b => b < a
  | .inf, .inf => false
  | .inf, _ => true
  | _, .inf => false
  | .ninf, _ => false
  | .num _, .ninf => true

/-- JavaScript Math.min: NaN if either argument is NaN. -/
def jsMin : JsNum → JsNum → JsNum
  | .nan, _ => .nan
  | _, .nan => .nan
  | .num a, .num b => .num (min a b)
  | .ninf, _ => .ninf
  | _, .ninf => .ninf
  | .inf, b => b
  | a, .inf => a

/-- A JavaScript property read that may be `undefined`; an undefined operand
behaves as NaN in arithmetic. -/
def optNum : Option ℚ → JsNum
  | some q => .num q
  | none => .nan

/-- JavaScript array indexing `arr[i]`: a negative or out-of-range index
reads `undefined`. -/
def timeGet (l : List ℚ) (i : Int) : Option ℚ :=
  if i < 0 then none else l.get? i.toNat

/-- A latitude/longitude pair, as in the `coords` objects of models.js. -/
structure Coord where
  lat : ℚ
  lng : ℚ
deriving DecidableEq, Repr

/-- A city record (models.js CITIES); the fields the engine reads. -/
structure City where
  id : String
  name : String
  coords : Coord
  defaultDatacenter : String
deriving DecidableEq, Repr

/-- One entry of a datacenter `energy.sources` array. -/
structure PowerSource where
  name : String
  coords : Coord
  type : String
deriving DecidableEq, Repr

/-- A datacenter `energy` profile.  The grid mix is a key/value object,
modelled as an association list in insertion order. -/
structure Energy where
  gridMix : List (String × ℚ)
  pue : ℚ
  carbonIntensity : ℚ
  sources : List PowerSource
deriving DecidableEq, Repr

/-- A datacenter `water` profile. -/
structure WaterProfile where
  source : String
  sourceCoords : Coord
  stressLevel : String
  wue : ℚ
  aquiferDepletion : ℚ
  annualWithdrawal : ℚ
deriving DecidableEq, Repr

/-- A datacenter `climate` profile. -/
structure Climate where
  avgTemp : ℚ
  coolingDays : ℚ
  heatPenalty : ℚ
deriving DecidableEq, Repr

/-- A datacenter record (models.js DATACENTERS). -/
structure Datacenter where
  id : String
  name : String
  location : String
  coords : Coord
  energy : Energy
  water : WaterProfile
  climate : Climate
deriving DecidableEq, Repr

/-- A workload `perSession` bundle.  The four workloads populate different
subsets of these fields (a tagged union in the source, dispatched on the
workload id); absent fields read as `undefined`.  Presentation-only fields
(token counts, durations, resolutions, sensor counts) are omitted: the
engine never reads them. -/
structure PerSession where
  queries : Option ℚ := none
  kwhPerQuery : Option ℚ := none
  images : Option ℚ := none
  kwhPerImage : Option ℚ := none
  kwhPerHour : Option ℚ := none
deriving DecidableEq, Repr

/-- A workload record (models.js WORKLOADS). -/
structure Workload where
  id : String
  name : String
  perSession : PerSession
deriving DecidableEq, Repr

/-- A material record (models.js MATERIALS); the fields the engine reads. -/
structure Material where
  name : String
  sourceCoords : Coord
deriving DecidableEq, Repr

/-- A named location: e-waste destinations and emissions-drift
destinations. -/
structure Place where
  name : String
  coords : Coord
deriving DecidableEq, Repr

/-- An emissions-drift record (models.js EMISSIONS_DRIFT). -/
structure Drift where
  direction : String
  destinations : List Place
  driftDistanceKm : ℚ
deriving DecidableEq, Repr

/-- The three parallel 24-entry hour-of-day modifier tables. -/
structure TimeModifiers where
  waterUsageByHour : List ℚ
  carbonIntensityByHour : List ℚ
  demandByHour : List ℚ
deriving DecidableEq, Repr

/-- models.js CITIES.barcelona. -/
def CITY_BARCELONA : City :=
  { id := "barcelona", name := "Barcelona",
    coords := { lat := 41.3851, lng := 2.1734 },
    defaultDatacenter := "ireland" }

/-- models.js CITIES.lagos. -/
def CITY_LAGOS : City :=
  { id := "lagos", name := "Lagos",
    coords := { lat := 6.5244, lng := 3.3792 },
    defaultDatacenter := "singapore" }

/-- models.js CITIES.phoenix. -/
def CITY_PHOENIX : City :=
  { id := "phoenix", name := "Phoenix",
    coords := { lat := 33.4484, lng := -112.0740 },
    defaultDatacenter := "arizona" }

/-- models.js CITIES.dublin. -/
def CITY_DUBLIN : City :=
  { id := "dublin", name := "Dublin",
    coords := { lat := 53.3498, lng := -6.2603 },
    defaultDatacenter := "ireland" }

/-- models.js CITIES. -/
def CITIES : List (String × City) :=
  [ ("barcelona", CITY_BARCELONA), ("lagos", CITY_LAGOS),
    ("phoenix", CITY_PHOENIX), ("dublin", CITY_DUBLIN) ]

/-- models.js DATACENTERS.arizona. -/
def DC_ARIZONA : Datacenter :=
  { id := "arizona", name := "Arizona Hyperscale", location := "Phoenix, Arizona",
    coords := { lat := 33.3942, lng := -111.9261 },
    energy :=
      { gridMix := [("natural_gas", 0.35), ("coal", 0.10), ("nuclear", 0.28),
                    ("solar", 0.15), ("wind", 0.07), ("hydro", 0.05)],
        pue := 1.25, carbonIntensity := 385,
        sources :=
          [ { name := "Palo Verde Nuclear", coords := { lat := 33.3886, lng := -112.8615 }, type := "nuclear" },
            { name := "Gila River Gas Plant", coords := { lat := 33.0589, lng := -112.6854 }, type := "gas" },
            { name := "Solana Solar", coords := { lat := 32.9297, lng := -112.9798 }, type := "solar" } ] },
    water :=
      { source := "Colorado River Basin / Central Arizona Project",
        sourceCoords := { lat := 36.0161, lng := -114.7377 },
        stressLevel := "extreme", wue := 1.8, aquiferDepletion := 0.42,
        annualWithdrawal := 2500000000 },
    climate := { avgTemp := 35, coolingDays := 280, heatPenalty := 1.4 } }

/-- models.js DATACENTERS.finland. -/
def DC_FINLAND : Datacenter :=
  { id := "finland", name := "Nordic Green DC", location := "Hamina, Finland",
    coords := { lat := 60.5693, lng := 27.1878 },
    energy :=
      { gridMix := [("nuclear", 0.33), ("hydro", 0.22), ("wind", 0.15),
                    ("biomass", 0.12), ("natural_gas", 0.10), ("coal", 0.05),
                    ("peat", 0.03)],
        pue := 1.10, carbonIntensity := 120,
        sources :=
          [ { name := "Olkiluoto Nuclear", coords := { lat := 61.2354, lng := 21.4424 }, type := "nuclear" },
            { name := "Baltic Wind Farm", coords := { lat := 60.1699, lng := 24.9384 }, type := "wind" } ] },
    water :=
      { source := "Baltic Sea (seawater cooling)",
        sourceCoords := { lat := 60.4, lng := 27.0 },
        stressLevel := "low", wue := 0.0, aquiferDepletion := 0.0,
        annualWithdrawal := 0 },
    climate := { avgTemp := 5, coolingDays := 45, heatPenalty := 0.85 } }

/-- models.js DATACENTERS.singapore. -/
def DC_SINGAPORE : Datacenter :=
  { id := "singapore", name := "Equinix SG Hub", location := "Singapore",
    coords := { lat := 1.3521, lng := 103.8198 },
    energy :=
      { gridMix := [("natural_gas", 0.95), ("solar", 0.03), ("other", 0.02)],
        pue := 1.55, carbonIntensity := 420,
        sources :=
          [ { name := "Jurong Island Gas Plants", coords := { lat := 1.2653, lng := 103.6990 }, type := "gas" },
            { name := "Sembcorp LNG", coords := { lat := 1.2456, lng := 103.7105 }, type := "lng" } ] },
    water :=
      { source := "NEWater (recycled) + Imported from Malaysia",
        sourceCoords := { lat := 1.4472, lng := 103.7867 },
        stressLevel := "high", wue := 2.2, aquiferDepletion := 0.0,
        annualWithdrawal := 1800000000 },
    climate := { avgTemp := 31, coolingDays := 365, heatPenalty := 1.55 } }

/-- models.js DATACENTERS.ireland. -/
def DC_IRELAND : Datacenter :=
  { id := "ireland", name := "Dublin Cloud Campus", location := "Dublin, Ireland",
    coords := { lat := 53.4055, lng := -6.3725 },
    energy :=
      { gridMix := [("wind", 0.35), ("natural_gas", 0.48), ("coal", 0.06),
                    ("hydro", 0.03), ("peat", 0.05), ("solar", 0.03)],
        pue := 1.15, carbonIntensity := 295,
        sources :=
          [ { name := "Arklow Wind Farm", coords := { lat := 52.7945, lng := -6.0051 }, type := "wind" },
            { name := "Dublin Bay Gas", coords := { lat := 53.3331, lng := -6.1245 }, type := "gas" } ] },
    water :=
      { source := "River Liffey / Bohernabreena Reservoir",
        sourceCoords := { lat := 53.2452, lng := -6.3658 },
        stressLevel := "moderate", wue := 0.8, aquiferDepletion := 0.15,
        annualWithdrawal := 450000000 },
    climate := { avgTemp := 10, coolingDays := 90, heatPenalty := 1.0 } }

/-- models.js DATACENTERS. -/
def DATACENTERS : List (String × Datacenter) :=
  [ ("arizona", DC_ARIZONA), ("finland", DC_FINLAND),
    ("singapore", DC_SINGAPORE), ("ireland", DC_IRELAND) ]

/-- models.js WORKLOADS.chatbot. -/
def W_CHATBOT : Workload :=
  { id := "chatbot", name := "AI Chatbot",
    perSession := { queries := some 25, kwhPerQuery := some 0.0029 } }

/-- models.js WORKLOADS.image. -/
def W_IMAGE : Workload :=
  { id := "image", name := "Image Generator",
    perSession := { images := some 10, kwhPerImage := some 0.029 } }

/-- models.js WORKLOADS.traffic. -/
def W_TRAFFIC : Workload :=
  { id := "traffic", name := "Traffic AI",
    perSession := { kwhPerHour := some 2.5 } }

/-- models.js WORKLOADS.biometric. -/
def W_BIOMETRIC : Workload :=
  { id := "biometric", name := "Biometric Security",
    perSession := { kwhPerHour := some 8.5 } }

/-- models.js WORKLOADS. -/
def WORKLOADS : List (String × Workload) :=
  [ ("chatbot", W_CHATBOT), ("image", W_IMAGE),
    ("traffic", W_TRAFFIC), ("biometric", W_BIOMETRIC) ]

/-- models.js MATERIALS. -/
def MATERIALS : List (String × Material) :=
  [ ("cobalt", { name := "Cobalt", sourceCoords := { lat := -10.4167, lng := 25.9167 } }),
    ("lithium", { name := "Lithium", sourceCoords := { lat := -23.8634, lng := -67.4511 } }),
    ("rareEarth", { name := "Rare Earth Elements", sourceCoords := { lat := 41.8000, lng := 109.9667 } }),
    ("silicon", { name := "Silicon", sourceCoords := { lat := 41.7685, lng := 86.1471 } }),
    ("copper", { name := "Copper", sourceCoords := { lat := -22.4585, lng := -68.9291 } }) ]

/-- models.js EWASTE, in object-literal insertion order (the order
Object.values returns). -/
def EWASTE : List (String × Place) :=
  [ ("ghana", { name := "Agbogbloshie, Ghana", coords := { lat := 5.5500, lng := -0.2167 } }),
    ("india", { name := "Seelampur, Delhi", coords := { lat := 28.6842, lng := 77.2656 } }),
    ("china", { name := "Guiyu, China", coords := { lat := 23.2958, lng := 116.3536 } }),
    ("pakistan", { name := "Karachi", coords := { lat := 24.8607, lng := 67.0011 } }) ]

/-- models.js EMISSIONS_DRIFT. -/
def EMISSIONS_DRIFT : List (String × Drift) :=
  [ ("arizona",
     { direction := "west-northwest",
       destinations :=
         [ { name := "California", coords := { lat := 36.7783, lng := -119.4179 } },
           { name := "Pacific Ocean", coords := { lat := 32.0, lng := -130.0 } } ],
       driftDistanceKm := 2400 }),
    ("finland",
     { direction := "east",
       destinations :=
         [ { name := "Russia", coords := { lat := 61.5240, lng := 105.3188 } },
           { name := "Arctic", coords := { lat := 70.0, lng := 30.0 } } ],
       driftDistanceKm := 3200 }),
    ("singapore",
     { direction := "north",
       destinations :=
         [ { name := "South China Sea", coords := { lat := 15.0, lng := 110.0 } },
           { name := "Vietnam Coast", coords := { lat := 16.0544, lng := 108.2022 } } ],
       driftDistanceKm := 1800 }),
    ("ireland",
     { direction := "east",
       destinations :=
         [ { name := "United Kingdom", coords := { lat := 54.7024, lng := -3.2766 } },
           { name := "North Sea", coords := { lat := 56.0, lng := 3.0 } } ],
       driftDistanceKm := 1200 }) ]

/-- models.js TIME_MODIFIERS. -/
def TIME_MODIFIERS : TimeModifiers :=
  { waterUsageByHour :=
      [0.6, 0.5, 0.5, 0.5, 0.5, 0.6,
       0.7, 0.8, 0.9, 1.0, 1.1, 1.2,
       1.3, 1.4, 1.5, 1.5, 1.4, 1.3,
       1.1, 1.0, 0.9, 0.8, 0.7, 0.6],
    carbonIntensityByHour :=
      [1.1, 1.1, 1.1, 1.1, 1.05, 1.0,
       0.95, 0.9, 0.85, 0.8, 0.75, 0.7,
       0.7, 0.7, 0.75, 0.8, 0.85, 0.9,
       0.95, 1.0, 1.05, 1.1, 1.1, 1.1],
    demandByHour :=
      [0.7, 0.65, 0.6, 0.6, 0.65, 0.7,
       0.8, 0.9, 1.0, 1.1, 1.15, 1.2,
       1.15, 1.1, 1.15, 1.2, 1.25, 1.2,
       1.1, 1.0, 0.9, 0.85, 0.8, 0.75] }

/-- The mutable state of the engine.js SimulationEngine object. -/
structure SimulationEngine where
  currentCity : Option City
  currentWorkload : Option Workload
  currentDatacenter : Option Datacenter
  currentHour : Int
deriving DecidableEq, Repr

/-- The constructor: all selections null, hour 14. -/
def SimulationEngine.init : SimulationEngine :=
  { currentCity := none, currentWorkload := none,
    currentDatacenter := none, currentHour := 14 }

/-- The destructured argument object of configure; an absent field is
`undefined`. -/
structure ConfigArgs where
  city : Option String := none
  workload : Option String := none
  datacenter : Option String := none
  hour : Option Int := none
deriving DecidableEq, Repr

/-- JavaScript truthiness of an optional string: `undefined`, null and the
empty string are falsy, every other string truthy. -/
def truthy : Option String → Bool
  | none => false
  | some s => s != ""

/-- engine.js configure: each truthy identifier is looked up in its table
and the looked-up value (possibly `undefined`) is assigned; the hour is
assigned whenever it is not `undefined`. -/
def configure (e : SimulationEngine) (args : ConfigArgs) : SimulationEngine :=
  let e1 := if truthy args.city then
      { e with currentCity := args.city.bind (fun c => CITIES.lookup c) } else e
  let e2 := if truthy args.workload then
      { e1 with currentWorkload := args.workload.bind (fun w => WORKLOADS.lookup w) } else e1
  let e3 := if truthy args.datacenter then
      { e2 with currentDatacenter := args.datacenter.bind (fun d => DATACENTERS.lookup d) } else e2
  match args.hour with
  | some h => { e3 with currentHour := h }
  | none => e3

/-- engine.js toRad. -/
noncomputable def toRad (deg : ℝ) : ℝ := deg * (Real.pi / 180)

/-- JavaScript Math.atan2 on real arguments. -/
noncomputable def atan2 (y x : ℝ) : ℝ :=
  if 0 < x then Real.arctan (y / x)
  else if x < 0 then
    (if 0 ≤ y then Real.arctan (y / x) + Real.pi else Real.arctan (y / x) - Real.pi)
  else
    (if 0 < y then Real.pi / 2 else if y < 0 then -(Real.pi / 2) else 0)

/-- engine.js calculateDistance: the Haversine formula with Earth radius
6371 km, embedded over the reals (the idealisation of the double-precision
source). -/
noncomputable def calculateDistance (coord1 coord2 : Coord) : ℝ :=
  let R : ℝ := 6371
  let dLat := toRad ((coord2.lat : ℝ) - (coord1.lat : ℝ))
  let dLng := toRad ((coord2.lng : ℝ) - (coord1.lng : ℝ))
  let a := Real.sin (dLat / 2) * Real.sin (dLat / 2) +
      Real.cos (toRad (coord1.lat : ℝ)) * Real.cos (toRad (coord2.lat : ℝ)) *
      Real.sin (dLng / 2) * Real.sin (dLng / 2)
  let c := 2 * atan2 (Real.sqrt a) (Real.sqrt (1 - a))
  R * c

/-- The switch statement of calculateElectricity: per-session base energy by
workload-kind dispatch on the workload id, defaulting to 0. -/
def sessionBaseKwh (w : Workload) : JsNum :=
  if w.id = "chatbot" then jsMul (optNum w.perSession.queries) (optNum w.perSession.kwhPerQuery)
  else if w.id = "image" then jsMul (optNum w.perSession.images) (optNum w.perSession.kwhPerImage)
  else if w.id = "traffic" then optNum w.perSession.kwhPerHour
  else if w.id = "biometric" then optNum w.perSession.kwhPerHour
  else JsNum.num 0

/-- engine.js calculateFossilPercent: sums the grid-mix shares of the fixed
fossil category list, skipping falsy (absent or zero) entries, and scales
to a percentage. -/
def calculateFossilPercent (gridMix : List (String × ℚ)) : ℚ :=
  let fossilSources := ["natural_gas", "coal", "peat", "oil"]
  (fossilSources.foldl (fun acc s =>
      match gridMix.lookup s with
      | some v => if v ≠ 0 then acc + v else acc
      | none => acc) 0) * 100

/-- The result object of calculateElectricity. -/
structure ElectricityResult where
  baseKwh : JsNum
  withOverhead : JsNum
  pue : ℚ
  heatPenalty : ℚ
  gridMix : List (String × ℚ)
  fossilPercent : ℚ
  sources : List PowerSource
deriving DecidableEq, Repr

/-- engine.js calculateElectricity: null when workload or datacenter is
unset; otherwise base energy by workload dispatch, scaled by PUE, then the
climate heat penalty, then the hour-of-day demand modifier. -/
def calculateElectricity (e : SimulationEngine) : Option ElectricityResult :=
  match e.currentWorkload, e.currentDatacenter with
  | some w, some dc =>
    let hourModifier := timeGet TIME_MODIFIERS.demandByHour e.currentHour
    let baseKwh := sessionBaseKwh w
    let withPue := jsMul baseKwh (JsNum.num dc.energy.pue)
    let withHeat := jsMul withPue (JsNum.num dc.climate.heatPenalty)
    let final := jsMul withHeat (optNum hourModifier)
    some { baseKwh := baseKwh, withOverhead := final,
           pue := dc.energy.pue, heatPenalty := dc.climate.heatPenalty,
           gridMix := dc.energy.gridMix,
           fossilPercent := calculateFossilPercent dc.energy.gridMix,
           sources := dc.energy.sources }
  | _, _ => none

/-- The result object of calculateWater. -/
structure WaterResult where
  liters : JsNum
  wue : ℚ
  source : String
  sourceCoords : Coord
  stressLevel : String
  aquiferDepletion : ℚ
  hourModifier : Option ℚ
  litersPerSecond : ℚ
deriving DecidableEq, Repr

/-- engine.js calculateWater: null when datacenter or workload is unset or
the electricity result is null; otherwise overhead-adjusted kWh times the
datacenter WUE times the hour-of-day water-usage modifier. -/
def calculateWater (e : SimulationEngine) : Option WaterResult :=
  match e.currentDatacenter, e.currentWorkload with
  | some dc, some _ =>
    match calculateElectricity e with
    | none => none
    | some electricity =>
      let hourModifier := timeGet TIME_MODIFIERS.waterUsageByHour e.currentHour
      let baseLiters := jsMul electricity.withOverhead (JsNum.num dc.water.wue)
      some { liters := jsMul baseLiters (optNum hourModifier),
             wue := dc.water.wue, source := dc.water.source,
             sourceCoords := dc.water.sourceCoords,
             stressLevel := dc.water.stressLevel,
             aquiferDepletion := dc.water.aquiferDepletion,
             hourModifier := hourModifier,
             litersPerSecond := dc.water.annualWithdrawal / (365 * 24 * 3600) }
  | _, _ => none

/-- Exceptions the engine can raise: the explicit configuration Error of
runSimulation, and the implicit TypeError of dereferencing a null or
undefined value. -/
inductive JsError where
  | configError
  | typeError
deriving DecidableEq, Repr

/-- The result object of calculateEmissions. -/
structure EmissionsResult where
  grams : JsNum
  carbonIntensity : JsNum
  baseCarbonIntensity : ℚ
  drift : Option Drift
  annualTonsCO2 : JsNum
deriving DecidableEq, Repr

/-- engine.js calculateEmissions: null when the datacenter is unset.  When
the datacenter is set but the electricity result is null (workload unset),
the source reads withOverhead of null, raising a TypeError. -/
def calculateEmissions (e : SimulationEngine) : Except JsError (Option EmissionsResult) :=
  match e.currentDatacenter with
  | none => .ok none
  | some dc =>
    match calculateElectricity e with
    | none => .error .typeError
    | some electricity =>
      let hourModifier := optNum (timeGet TIME_MODIFIERS.carbonIntensityByHour e.currentHour)
      let adjustedIntensity := jsMul (JsNum.num dc.energy.carbonIntensity) hourModifier
      let grams := jsMul electricity.withOverhead adjustedIntensity
      let sessionsPerYear : ℚ := 365 * 24 * 4
      let annualTons := jsDiv (jsMul grams (JsNum.num sessionsPerYear)) (JsNum.num 1000000)
      .ok (some { grams := grams, carbonIntensity := adjustedIntensity,
                  baseCarbonIntensity := dc.energy.carbonIntensity,
                  drift := EMISSIONS_DRIFT.lookup dc.id,
                  annualTonsCO2 := annualTons })

/-- The result object of getMaterials. -/
structure MaterialsResult where
  materials : List (String × Material)
  ewasteDestinations : List Place
deriving DecidableEq, Repr

/-- engine.js getMaterials: the curated GPU-material subset of MATERIALS in
the fixed key order, and Object.values of EWASTE.  Every curated key is
present in MATERIALS, so the filterMap drops nothing. -/
def getMaterials : MaterialsResult :=
  { materials := ["cobalt", "lithium", "rareEarth", "silicon"].filterMap
      (fun key => (MATERIALS.lookup key).map (fun m => (key, m))),
    ewasteDestinations := EWASTE.map (fun kv => kv.2) }

/-- A flow record for the ghost-line visualisation; fields some flow kinds
leave unset are `undefined`. -/
structure Flow where
  type : String
  subtype : Option String := none
  fromCoord : Coord
  toCoord : Coord
  label : String
  sourceType : Option String := none
  intensity : JsNum
  stressLevel : Option String := none
deriving DecidableEq, Repr

/-- The grid-mix share read of generateFlows: the share for the source
type, with 0.1 substituted for a falsy (absent or zero) entry. -/
def gridShare (gridMix : List (String × ℚ)) (t : String) : ℚ :=
  match gridMix.lookup t with
  | some v => if v ≠ 0 then v else 0.1
  | none => 0.1

/-- engine.js generateFlows: the data flow, one electricity flow per power
source, a water flow when liters are positive, one emissions flow per
drift destination, one supply flow per curated material, and an e-waste
flow for the first two e-waste destinations, in that order. -/
def generateFlows (city : City) (dc : Datacenter) (electricity : ElectricityResult)
    (water : WaterResult) (emissions : EmissionsResult)
    (materials : MaterialsResult) : List Flow :=
  [ { type := "data", fromCoord := city.coords, toCoord := dc.coords,
      label := "Request", intensity := JsNum.num 1 } ]
  ++ electricity.sources.map (fun s =>
      { type := "electricity", fromCoord := s.coords, toCoord := dc.coords,
        label := s.name, sourceType := some s.type,
        intensity := JsNum.num (gridShare dc.energy.gridMix s.type) })
  ++ (if jsGt water.liters (JsNum.num 0) then
      [ { type := "water", fromCoord := water.sourceCoords, toCoord := dc.coords,
          label := water.source,
          intensity := jsMin (jsDiv water.liters (JsNum.num 10)) (JsNum.num 1),
          stressLevel := some water.stressLevel } ]
      else [])
  ++ (match emissions.drift with
      | some drift => drift.destinations.map (fun dest =>
          { type := "emissions", fromCoord := dc.coords, toCoord := dest.coords,
            label := "CO₂ drift to " ++ dest.name,
            intensity := jsMin (jsDiv emissions.grams (JsNum.num 500)) (JsNum.num 1) })
      | none => [])
  ++ materials.materials.map (fun km =>
      { type := "materials", subtype := some "supply",
        fromCoord := km.2.sourceCoords, toCoord := dc.coords,
        label := km.2.name, intensity := JsNum.num 0.5 })
  ++ (materials.ewasteDestinations.take 2).map (fun dest =>
      { type := "materials", subtype := some "ewaste",
        fromCoord := dc.coords, toCoord := dest.coords,
        label := "E-waste to " ++ dest.name, intensity := JsNum.num 0.3 })

/-- The result bundle of runSimulation.  The real-valued distance and the
narrative strings built from it are presentation text over
calculateDistance (embedded separately) and the fields below; they are the
only parts of the bundle not carried here. -/
structure SimulationResult where
  city : City
  workload : Workload
  datacenter : Datacenter
  hour : Int
  electricity : ElectricityResult
  water : WaterResult
  emissions : EmissionsResult
  materials : MaterialsResult
  flows : List Flow
deriving DecidableEq, Repr

/-- engine.js runSimulation: throws the configuration Error when city,
workload or datacenter is unset; otherwise computes the sub-results and
composes the bundle.  Building narrativeData dereferences the electricity,
water and emissions results, so a null among them would raise a TypeError
(unreachable once the three selections are set). -/
def runSimulation (e : SimulationEngine) : Except JsError SimulationResult :=
  match e.currentCity, e.currentWorkload, e.currentDatacenter with
  | some city, some workload, some dc =>
    match calculateElectricity e, calculateWater e, calculateEmissions e with
    | some electricity, some water, .ok (some emissions) =>
        .ok { city := city, workload := workload, datacenter := dc,
              hour := e.currentHour, electricity := electricity,
              water := water, emissions := emissions,
              materials := getMaterials,
              flows := generateFlows city dc electricity water emissions getMaterials }
    | _, _, .error err => .error err
    | _, _, _ => .error .typeError
  | _, _, _ => .error .configError

/-- The comparison object of compareDatacenters: three percentage deltas,
each an unguarded (a - b) / b * 100 in JavaScript arithmetic. -/
structure Comparison where
  waterDifference : JsNum
  emissionsDifference : JsNum
  electricityDifference : JsNum
deriving DecidableEq, Repr

/-- The result object of compareDatacenters. -/
structure CompareResult where
  dc1 : SimulationResult
  dc2 : SimulationResult
  comparison : Comparison
deriving DecidableEq, Repr

/-- engine.js compareDatacenters: saves the current datacenter, assigns the
lookup of the first id, runs a full simulation, assigns the lookup of the
second id, runs again, then restores the saved datacenter and builds the
three deltas.  A thrown simulation propagates with the mutation still in
place, so the error branches return the state at the throw point. -/
def compareDatacenters (e : SimulationEngine) (dc1Id dc2Id : String) :
    Except (JsError × SimulationEngine) (CompareResult × SimulationEngine) :=
  let original := e.currentDatacenter
  let e1 := { e with currentDatacenter := DATACENTERS.lookup dc1Id }
  match runSimulation e1 with
  | .error err => .error (err, e1)
  | .ok results1 =>
    let e2 := { e1 with currentDatacenter := DATACENTERS.lookup dc2Id }
    match runSimulation e2 with
    | .error err => .error (err, e2)
    | .ok results2 =>
      let e3 := { e2 with currentDatacenter := original }
      .ok ({ dc1 := results1, dc2 := results2,
             comparison :=
               { waterDifference :=
                   jsMul (jsDiv (jsSub results1.water.liters results2.water.liters)
                     results2.water.liters) (JsNum.num 100),
                 emissionsDifference :=
                   jsMul (jsDiv (jsSub results1.emissions.grams results2.emissions.grams)
                     results2.emissions.grams) (JsNum.num 100),
                 electricityDifference :=
                   jsMul (jsDiv (jsSub results1.electricity.withOverhead results2.electricity.withOverhead)
                     results2.electricity.withOverhead) (JsNum.num 100) } }, e3)

/-! Rewriting lemmas for the JavaScript arithmetic on finite values. -/

theorem jsMul_num (a b : ℚ) : jsMul (.num a) (.num b) = .num (a * b) := rfl

theorem jsSub_num (a b : ℚ) : jsSub (.num a) (.num b) = .num (a - b) := rfl

theorem jsMin_num (a b : ℚ) : jsMin (.num a) (.num b) = .num (min a b) := rfl

theorem jsGt_num (a b : ℚ) : jsGt (.num a) (.num b) = decide (b < a) := rfl

theorem jsDiv_num (a b : ℚ) (hb : b ≠ 0) : jsDiv (.num a) (.num b) = .num (a / b) := by
  simp [jsDiv, hb]

theorem jsDiv_num_zero (a : ℚ) (ha : 0 < a) : jsDiv (.num a) (.num 0) = .inf := by
  simp [jsDiv, ha, ha.ne.symm]

theorem jsMul_inf_num (b : ℚ) (hb : 0 < b) : jsMul .inf (.num b) = .inf := by
  simp [jsMul, hb]

/-! Unfolding lemmas for the calculation methods on a configured engine. -/

/-- calculateElectricity on an engine with workload and datacenter set. -/
theorem calculateElectricity_configured (e : SimulationEngine) (w : Workload) (dc : Datacenter)
    (hw : e.currentWorkload = some w) (hd : e.currentDatacenter = some dc) :
    calculateElectricity e = some
      { baseKwh := sessionBaseKwh w,
        withOverhead := jsMul (jsMul (jsMul (sessionBaseKwh w) (JsNum.num dc.energy.pue))
          (JsNum.num dc.climate.heatPenalty))
          (optNum (timeGet TIME_MODIFIERS.demandByHour e.currentHour)),
        pue := dc.energy.pue, heatPenalty := dc.climate.heatPenalty,
        gridMix := dc.energy.gridMix,
        fossilPercent := calculateFossilPercent dc.energy.gridMix,
        sources := dc.energy.sources } := by
  obtain ⟨c0, w0, d0, h0⟩ := e
  subst hw
  subst hd
  rfl

/-- calculateWater on an engine with workload and datacenter set. -/
theorem calculateWater_configured (e : SimulationEngine) (w : Workload) (dc : Datacenter)
    (hw : e.currentWorkload = some w) (hd : e.currentDatacenter = some dc) :
    calculateWater e = some
      { liters := jsMul
          (jsMul (jsMul (jsMul (jsMul (sessionBaseKwh w) (JsNum.num dc.energy.pue))
              (JsNum.num dc.climate.heatPenalty))
              (optNum (timeGet TIME_MODIFIERS.demandByHour e.currentHour)))
            (JsNum.num dc.water.wue))
          (optNum (timeGet TIME_MODIFIERS.waterUsageByHour e.currentHour)),
        wue := dc.water.wue, source := dc.water.source,
        sourceCoords := dc.water.sourceCoords, stressLevel := dc.water.stressLevel,
        aquiferDepletion := dc.water.aquiferDepletion,
        hourModifier := timeGet TIME_MODIFIERS.waterUsageByHour e.currentHour,
        litersPerSecond := dc.water.annualWithdrawal / (365 * 24 * 3600) } := by
  obtain ⟨c0, w0, d0, h0⟩ := e
  subst hw
  subst hd
  rfl

/-- calculateEmissions on an engine with workload and datacenter set. -/
theorem calculateEmissions_configured (e : SimulationEngine) (w : Workload) (dc : Datacenter)
    (hw : e.currentWorkload = some w) (hd : e.currentDatacenter = some dc) :
    calculateEmissions e = .ok (some
      { grams := jsMul
          (jsMul (jsMul (jsMul (sessionBaseKwh w) (JsNum.num dc.energy.pue))
              (JsNum.num dc.climate.heatPenalty))
              (optNum (timeGet TIME_MODIFIERS.demandByHour e.currentHour)))
          (jsMul (JsNum.num dc.energy.carbonIntensity)
            (optNum (timeGet TIME_MODIFIERS.carbonIntensityByHour e.currentHour))),
        carbonIntensity := jsMul (JsNum.num dc.energy.carbonIntensity)
          (optNum (timeGet TIME_MODIFIERS.carbonIntensityByHour e.currentHour)),
        baseCarbonIntensity := dc.energy.carbonIntensity,
        drift := EMISSIONS_DRIFT.lookup dc.id,
        annualTonsCO2 := jsDiv (jsMul
          (jsMul (jsMul (jsMul (jsMul (sessionBaseKwh w) (JsNum.num dc.energy.pue))
              (JsNum.num dc.climate.heatPenalty))
              (optNum (timeGet TIME_MODIFIERS.demandByHour e.currentHour)))
            (jsMul (JsNum.num dc.energy.carbonIntensity)
              (optNum (timeGet TIME_MODIFIERS.carbonIntensityByHour e.currentHour))))
          (JsNum.num (365 * 24 * 4))) (JsNum.num 1000000) }) := by
  obtain ⟨c0, w0, d0, h0⟩ := e
  subst hw
  subst hd
  rfl

/-- runSimulation on a fully configured engine: every sub-calculation
succeeds and the bundle is assembled from the sub-results. -/
theorem runSimulation_configured (e : SimulationEngine) (city : City) (w : Workload)
    (dc : Datacenter) (hc : e.currentCity = some city) (hw : e.currentWorkload = some w)
    (hd : e.currentDatacenter = some dc) :
    ∃ el wa em, calculateElectricity e = some el ∧ calculateWater e = some wa ∧
      calculateEmissions e = .ok (some em) ∧
      runSimulation e = .ok
        { city := city, workload := w, datacenter := dc, hour := e.currentHour,
          electricity := el, water := wa, emissions := em, materials := getMaterials,
          flows := generateFlows city dc el wa em getMaterials } := by
  obtain ⟨c0, w0, d0, h0⟩ := e
  subst hc
  subst hw
  subst hd
  exact ⟨_, _, _, rfl, rfl, rfl, rfl⟩

/-- An hour-of-day in 0..23 indexes a 24-entry modifier table in range. -/
theorem timeGet_mem (l : List ℚ) (i : Int) (h0 : 0 ≤ i) (hlt : i.toNat < l.length) :
    ∃ m, timeGet l i = some m ∧ m ∈ l := by
  refine ⟨l.get ⟨i.toNat, hlt⟩, ?_, List.get_mem _ _ _⟩
  simp [timeGet, not_lt.mpr h0, List.get?_eq_get hlt]

/-- Every demand modifier is positive. -/
theorem demandByHour_pos : ∀ m ∈ TIME_MODIFIERS.demandByHour, 0 < m := by
  intro m hm
  simp only [TIME_MODIFIERS] at hm
  fin_cases hm <;> norm_num

/-- Every water-usage modifier is positive. -/
theorem waterUsageByHour_pos : ∀ m ∈ TIME_MODIFIERS.waterUsageByHour, 0 < m := by
  intro m hm
  simp only [TIME_MODIFIERS] at hm
  fin_cases hm <;> norm_num

/-- Every carbon-intensity modifier is positive. -/
theorem carbonIntensityByHour_pos : ∀ m ∈ TIME_MODIFIERS.carbonIntensityByHour, 0 < m := by
  intro m hm
  simp only [TIME_MODIFIERS] at hm
  fin_cases hm <;> norm_num

/-- Each of the three modifier tables has exactly 24 entries. -/
theorem timeModifiers_length :
    TIME_MODIFIERS.waterUsageByHour.length = 24 ∧
    TIME_MODIFIERS.carbonIntensityByHour.length = 24 ∧
    TIME_MODIFIERS.demandByHour.length = 24 :=
  ⟨rfl, rfl, rfl⟩

/-- The base per-session energy of each catalogued workload is a positive
finite number. -/
theorem sessionBaseKwh_num : ∀ w ∈ WORKLOADS.map Prod.snd,
    ∃ b : ℚ, sessionBaseKwh w = JsNum.num b ∧ 0 < b := by
  intro w hw
  simp only [WORKLOADS, List.map_cons, List.map_nil] at hw
  fin_cases hw
  · exact ⟨25 * 0.0029, rfl, by norm_num⟩
  · exact ⟨10 * 0.029, rfl, by norm_num⟩
  · exact ⟨2.5, rfl, by norm_num⟩
  · exact ⟨8.5, rfl, by norm_num⟩

/-- Numeric table facts about the catalogued datacenters. -/
theorem datacenter_table_facts : ∀ dc ∈ DATACENTERS.map Prod.snd,
    0 < dc.energy.pue ∧ 0 < dc.climate.heatPenalty ∧
    0 ≤ dc.energy.carbonIntensity ∧ 0 ≤ dc.water.wue := by
  intro dc hdc
  simp only [DATACENTERS, List.map_cons, List.map_nil] at hdc
  fin_cases hdc <;>
    norm_num [DC_ARIZONA, DC_FINLAND, DC_SINGAPORE, DC_IRELAND]

/-! Claim C1: configure with unknown identifiers. -/

/-- Claim C1 counterexample: with Barcelona selected, configuring the
unknown city identifier atlantis does not leave the selected city as it
was: the selection is cleared to undefined. -/
theorem configure_unknown_city_cex :
    (configure (configure SimulationEngine.init { city := some "barcelona" })
        { city := some "atlantis" }).currentCity = none ∧
    (configure SimulationEngine.init { city := some "barcelona" }).currentCity
      = some CITY_BARCELONA :=
  ⟨rfl, rfl⟩

/-- Claim C1 (amended): a truthy city, workload or datacenter identifier
that does not resolve in its reference table is still looked up and
assigned, so the corresponding selection is cleared to undefined rather
than left unchanged; the hour field keeps its value.  Only falsy
identifiers (absent or empty) are skipped. -/
theorem configure_unknown_ids (e : SimulationEngine) (c w d : String)
    (hc : c ≠ "") (hw : w ≠ "") (hd : d ≠ "")
    (hcl : CITIES.lookup c = none) (hwl : WORKLOADS.lookup w = none)
    (hdl : DATACENTERS.lookup d = none) :
    configure e { city := some c, workload := some w, datacenter := some d } =
      { e with currentCity := none, currentWorkload := none,
               currentDatacenter := none } := by
  simp [configure, truthy, bne_iff_ne, hc, hw, hd, hcl, hwl, hdl]

/-- Claim C1 witness: the amended behaviour at a fully configured engine
and three concrete unknown identifiers. -/
theorem configure_unknown_ids_witness :
    configure (configure SimulationEngine.init
        { city := some "phoenix", workload := some "image",
          datacenter := some "arizona", hour := some 15 })
      { city := some "atlantis", workload := some "mining", datacenter := some "mars" } =
      { currentCity := none, currentWorkload := none,
        currentDatacenter := none, currentHour := 15 } := by
  have h := configure_unknown_ids
    (configure SimulationEngine.init
      { city := some "phoenix", workload := some "image",
        datacenter := some "arizona", hour := some 15 })
    "atlantis" "mining" "mars" (by decide) (by decide) (by decide) rfl rfl rfl
  exact h

/-! Claim C2: null results versus thrown errors. -/

/-- Claim C2 counterexample: with the datacenter set and the workload
unset, calculateEmissions does not return a null result without throwing;
it raises a TypeError by reading withOverhead of the null electricity
result. -/
theorem calculateEmissions_typeError_cex :
    calculateEmissions (configure SimulationEngine.init { datacenter := some "arizona" })
      = .error .typeError := rfl

/-- Claim C2 (amended): calculateElectricity and calculateWater return null
exactly when the workload or the datacenter is unset; calculateEmissions
returns null when the datacenter is unset, but raises a TypeError when the
datacenter is set and the workload is not; runSimulation raises the
configuration error exactly when city, workload or datacenter is unset. -/
theorem nullOrThrow_contract (e : SimulationEngine) :
    (calculateElectricity e = none ↔
      (e.currentWorkload = none ∨ e.currentDatacenter = none)) ∧
    (calculateWater e = none ↔
      (e.currentWorkload = none ∨ e.currentDatacenter = none)) ∧
    (e.currentDatacenter = none → calculateEmissions e = .ok none) ∧
    (e.currentDatacenter ≠ none → e.currentWorkload = none →
      calculateEmissions e = .error .typeError) ∧
    (runSimulation e = .error .configError ↔
      (e.currentCity = none ∨ e.currentWorkload = none ∨ e.currentDatacenter = none)) := by
  obtain ⟨c0, w0, d0, h0⟩ := e
  cases c0 <;> cases w0 <;> cases d0 <;>
    simp [calculateElectricity, calculateWater, calculateEmissions, runSimulation]

/-- Claim C2 witness: the amended contract applied at an engine with only
the datacenter selected. -/
theorem nullOrThrow_contract_witness :
    calculateEmissions (configure SimulationEngine.init { datacenter := some "finland" })
      = .error .typeError :=
  (nullOrThrow_contract
    (configure SimulationEngine.init { datacenter := some "finland" })).2.2.2.1
    (Option.some_ne_none DC_FINLAND) rfl

/-- The concrete scenario of the spec: city Phoenix, image workload, the
Arizona datacenter, hour 15. -/
def phoenixImageEngine : SimulationEngine :=
  configure SimulationEngine.init
    { city := some "phoenix", workload := some "image",
      datacenter := some "arizona", hour := some 15 }

/-! Claim C3: electricity dispatch, the fixed multiplier order, and the
Arizona image scenario. -/

/-- Claim C3: for a configured workload, datacenter and hour in 0..23,
baseKwh comes from the workload-kind dispatch (chatbot queries times
kwhPerQuery, image images times kwhPerImage, traffic and biometric
kwhPerHour) and withOverhead multiplies it by PUE, then the heat penalty,
then the demand modifier of the hour, in that order; in the image and
Arizona scenario at hour 15 the base is 0.29 kWh, the overhead-adjusted
value 0.609 kWh, and the Arizona fossil percentage 45. -/
theorem calculateElectricity_spec (e : SimulationEngine) (w : Workload) (dc : Datacenter)
    (hw : e.currentWorkload = some w) (hd : e.currentDatacenter = some dc)
    (h0 : 0 ≤ e.currentHour) (h23 : e.currentHour ≤ 23) :
    (∃ m : ℚ, timeGet TIME_MODIFIERS.demandByHour e.currentHour = some m ∧
      calculateElectricity e = some
        { baseKwh := sessionBaseKwh w,
          withOverhead := jsMul (jsMul (jsMul (sessionBaseKwh w) (JsNum.num dc.energy.pue))
            (JsNum.num dc.climate.heatPenalty)) (JsNum.num m),
          pue := dc.energy.pue, heatPenalty := dc.climate.heatPenalty,
          gridMix := dc.energy.gridMix,
          fossilPercent := calculateFossilPercent dc.energy.gridMix,
          sources := dc.energy.sources }) ∧
    sessionBaseKwh W_CHATBOT
      = jsMul (optNum W_CHATBOT.perSession.queries) (optNum W_CHATBOT.perSession.kwhPerQuery) ∧
    sessionBaseKwh W_IMAGE
      = jsMul (optNum W_IMAGE.perSession.images) (optNum W_IMAGE.perSession.kwhPerImage) ∧
    sessionBaseKwh W_TRAFFIC = optNum W_TRAFFIC.perSession.kwhPerHour ∧
    sessionBaseKwh W_BIOMETRIC = optNum W_BIOMETRIC.perSession.kwhPerHour ∧
    (calculateElectricity phoenixImageEngine).map
        (fun r => (r.baseKwh, r.withOverhead, r.fossilPercent))
      = some (JsNum.num 0.29, JsNum.num 0.609, 45) := by
  refine ⟨?_, rfl, rfl, rfl, rfl, ?_⟩
  · have hlt : e.currentHour.toNat < TIME_MODIFIERS.demandByHour.length := by
      have h24 : TIME_MODIFIERS.demandByHour.length = 24 := rfl
      omega
    obtain ⟨m, hm, _⟩ := timeGet_mem TIME_MODIFIERS.demandByHour e.currentHour h0 hlt
    refine ⟨m, hm, ?_⟩
    rw [calculateElectricity_configured e w dc hw hd, hm]
    exact rfl
  · have h : phoenixImageEngine =
        { currentCity := some CITY_PHOENIX, currentWorkload := some W_IMAGE,
          currentDatacenter := some DC_ARIZONA, currentHour := 15 } := rfl
    rw [h]
    simp [calculateElectricity, sessionBaseKwh, W_IMAGE, DC_ARIZONA, calculateFossilPercent,
      optNum, timeGet, jsMul_num, TIME_MODIFIERS, List.lookup]
    norm_num

/-- Claim C3 witness: the dispatch and multiplier order at the concrete
Phoenix image scenario. -/
theorem calculateElectricity_spec_witness :
    (calculateElectricity phoenixImageEngine).isSome = true := by
  obtain ⟨⟨m, hm, he⟩, -⟩ := calculateElectricity_spec phoenixImageEngine W_IMAGE DC_ARIZONA
    rfl rfl (by decide) (by decide)
  rw [he]
  rfl

/-! Claim C7: the water formula and the seawater-cooled datacenter. -/

/-- Claim C7: for a configured workload, datacenter and hour in 0..23, the
liters are the overhead-adjusted kWh times the datacenter WUE times the
water-usage modifier of the hour; hence a datacenter with WUE zero (such
as the seawater-cooled Finland site) yields zero liters for every
catalogued workload and every hour. -/
theorem calculateWater_spec (e : SimulationEngine) (w : Workload) (dc : Datacenter)
    (hw : e.currentWorkload = some w) (hd : e.currentDatacenter = some dc)
    (hwm : w ∈ WORKLOADS.map Prod.snd)
    (h0 : 0 ≤ e.currentHour) (h23 : e.currentHour ≤ 23) :
    (∃ el m, calculateElectricity e = some el ∧
      timeGet TIME_MODIFIERS.waterUsageByHour e.currentHour = some m ∧
      (calculateWater e).map (fun r => r.liters)
        = some (jsMul (jsMul el.withOverhead (JsNum.num dc.water.wue)) (JsNum.num m))) ∧
    DC_FINLAND.water.wue = 0 ∧
    (dc.water.wue = 0 → (calculateWater e).map (fun r => r.liters) = some (JsNum.num 0)) := by
  have hlt : e.currentHour.toNat < TIME_MODIFIERS.waterUsageByHour.length := by
    have h24 : TIME_MODIFIERS.waterUsageByHour.length = 24 := rfl
    omega
  obtain ⟨m, hm, _⟩ := timeGet_mem TIME_MODIFIERS.waterUsageByHour e.currentHour h0 hlt
  have hltd : e.currentHour.toNat < TIME_MODIFIERS.demandByHour.length := by
    have h24 : TIME_MODIFIERS.demandByHour.length = 24 := rfl
    omega
  obtain ⟨md, hmd, _⟩ := timeGet_mem TIME_MODIFIERS.demandByHour e.currentHour h0 hltd
  refine ⟨⟨_, m, calculateElectricity_configured e w dc hw hd, hm, ?_⟩,
    by norm_num [DC_FINLAND], ?_⟩
  · rw [calculateWater_configured e w dc hw hd]
    simp only [hm, Option.map_some]
    exact rfl
  · intro hwue
    obtain ⟨b, hb, -⟩ := sessionBaseKwh_num w hwm
    rw [calculateWater_configured e w dc hw hd]
    simp only [hwue, hm, hmd, hb, optNum, jsMul_num, Option.map_some]
    norm_num

/-- Claim C7 witness: zero liters at the Finland datacenter with the
biometric workload at hour 8. -/
theorem calculateWater_spec_witness :
    (calculateWater (configure SimulationEngine.init
        { city := some "lagos", workload := some "biometric",
          datacenter := some "finland", hour := some 8 })).map (fun r => r.liters)
      = some (JsNum.num 0) :=
  (calculateWater_spec
    (configure SimulationEngine.init
      { city := some "lagos", workload := some "biometric",
        datacenter := some "finland", hour := some 8 })
    W_BIOMETRIC DC_FINLAND rfl rfl (by simp [WORKLOADS]) (by decide) (by decide)).2.2
    (by norm_num [DC_FINLAND])

/-! Claim C8: hour clamping. -/

/-- Claim C8: configure stores the hour unclamped and unvalidated; at hour
24 all three modifier reads are out of range (undefined) and the
overhead-adjusted electricity becomes NaN. -/
theorem hour_not_clamped :
    (configure SimulationEngine.init { hour := some 24 }).currentHour = 24 ∧
    timeGet TIME_MODIFIERS.demandByHour 24 = none ∧
    timeGet TIME_MODIFIERS.waterUsageByHour 24 = none ∧
    timeGet TIME_MODIFIERS.carbonIntensityByHour 24 = none ∧
    (calculateElectricity (configure SimulationEngine.init
        { workload := some "chatbot", datacenter := some "arizona",
          hour := some 24 })).map (fun r => r.withOverhead) = some JsNum.nan :=
  ⟨rfl, rfl, rfl, rfl, rfl⟩

/-- runSimulation throws the configuration error whenever a required
selection is unset. -/
theorem runSimulation_configError (e : SimulationEngine)
    (h : e.currentCity = none ∨ e.currentWorkload = none ∨ e.currentDatacenter = none) :
    runSimulation e = .error .configError := by
  obtain ⟨c0, w0, d0, h0⟩ := e
  cases c0 <;> cases w0 <;> cases d0 <;> simp_all [runSimulation]

/-! Claim C5: compareDatacenters restores the configuration on success. -/

/-- Claim C5: for a fully configured engine and two identifiers that
resolve in the datacenter table, compareDatacenters succeeds and hands
back the engine with the configured datacenter (indeed the whole
configuration) equal to its pre-call value. -/
theorem compareDatacenters_restores (e : SimulationEngine) (id1 id2 : String)
    (city : City) (w : Workload) (dc dc1 dc2 : Datacenter)
    (hc : e.currentCity = some city) (hw : e.currentWorkload = some w)
    (_hd : e.currentDatacenter = some dc)
    (h1 : DATACENTERS.lookup id1 = some dc1) (h2 : DATACENTERS.lookup id2 = some dc2) :
    ∃ res eng, compareDatacenters e id1 id2 = .ok (res, eng) ∧
      eng.currentDatacenter = e.currentDatacenter ∧ eng = e := by
  obtain ⟨el1, wa1, em1, -, -, -, hrun1⟩ := runSimulation_configured
    { e with currentDatacenter := DATACENTERS.lookup id1 } city w dc1 hc hw h1
  obtain ⟨el2, wa2, em2, -, -, -, hrun2⟩ := runSimulation_configured
    { { e with currentDatacenter := DATACENTERS.lookup id1 } with
      currentDatacenter := DATACENTERS.lookup id2 } city w dc2 hc hw h2
  simp only [compareDatacenters, hrun1, hrun2]
  exact ⟨_, _, rfl, rfl, rfl⟩

/-- Claim C5 witness: the restore invariant at the Phoenix image scenario,
comparing the Finland and Singapore datacenters. -/
theorem compareDatacenters_restores_witness :
    ∃ res eng, compareDatacenters phoenixImageEngine "finland" "singapore" = .ok (res, eng) ∧
      eng.currentDatacenter = phoenixImageEngine.currentDatacenter ∧
      eng = phoenixImageEngine :=
  compareDatacenters_restores phoenixImageEngine "finland" "singapore" CITY_PHOENIX W_IMAGE
    DC_ARIZONA DC_FINLAND DC_SINGAPORE rfl rfl rfl rfl rfl

/-! Claim C10: the save/mutate/restore sequence is not exception safe. -/

/-- Claim C10: when either internal runSimulation call throws, the restore
step never executes: after a first-run throw (city or workload unset, or
an unknown first identifier), the configured datacenter is left at the
lookup of the first identifier; after a second-run throw (unknown second
identifier), it is left cleared by the failed second lookup, not restored
to its pre-call value. -/
theorem compareDatacenters_not_exception_safe (e : SimulationEngine) (id1 id2 : String) :
    ((e.currentCity = none ∨ e.currentWorkload = none ∨ DATACENTERS.lookup id1 = none) →
      compareDatacenters e id1 id2 =
        .error (.configError, { e with currentDatacenter := DATACENTERS.lookup id1 })) ∧
    (∀ city w dc1, e.currentCity = some city → e.currentWorkload = some w →
      DATACENTERS.lookup id1 = some dc1 → DATACENTERS.lookup id2 = none →
      compareDatacenters e id1 id2 =
        .error (.configError, { e with currentDatacenter := none })) := by
  constructor
  · intro h
    have hrun1 : runSimulation { e with currentDatacenter := DATACENTERS.lookup id1 }
        = .error .configError := by
      apply runSimulation_configError
      rcases h with h | h | h
      · exact Or.inl h
      · exact Or.inr (Or.inl h)
      · exact Or.inr (Or.inr h)
    simp only [compareDatacenters, hrun1]
  · intro city w dc1 hc hw h1 h2
    obtain ⟨el1, wa1, em1, -, -, -, hrun1⟩ := runSimulation_configured
      { e with currentDatacenter := DATACENTERS.lookup id1 } city w dc1 hc hw h1
    have hrun2 : runSimulation { e with currentDatacenter := none } = .error .configError :=
      runSimulation_configError _ (Or.inr (Or.inr rfl))
    simp only [compareDatacenters, hrun1, h2, hrun2]

/-- Claim C10 witness: with only the datacenter configured, a comparison
throws on the first run and leaves the looked-up first datacenter in
place of the saved Arizona selection. -/
theorem compareDatacenters_not_exception_safe_witness :
    compareDatacenters (configure SimulationEngine.init { datacenter := some "arizona" })
        "finland" "singapore" =
      .error (.configError,
        { configure SimulationEngine.init { datacenter := some "arizona" } with
          currentDatacenter := DATACENTERS.lookup "finland" }) :=
  (compareDatacenters_not_exception_safe
    (configure SimulationEngine.init { datacenter := some "arizona" })
    "finland" "singapore").1 (Or.inl rfl)

/-! Claim C6: the comparison deltas and division by zero. -/

/-- Claim C6 counterexample: comparing Arizona against the emissions-free
Finland site, the water delta is the Infinity produced by the unguarded
division (resultA - resultB) / resultB * 100 with resultB zero — not a
special-cased or explicitly reported value. -/
theorem comparison_div_zero_cex :
    (compareDatacenters phoenixImageEngine "arizona" "finland").toOption.map
      (fun p => p.1.comparison.waterDifference) = some JsNum.inf := by
  simp [compareDatacenters, runSimulation, calculateElectricity, calculateWater,
    calculateEmissions, getMaterials, generateFlows, sessionBaseKwh, calculateFossilPercent,
    gridShare, optNum, timeGet, jsMul, jsDiv, jsSub, jsMin, jsGt, Except.toOption,
    DC_ARIZONA, DC_FINLAND, W_IMAGE, CITY_PHOENIX, TIME_MODIFIERS,
    MATERIALS, EWASTE, EMISSIONS_DRIFT, List.lookup, phoenixImageEngine, configure, truthy]
  norm_num

/-- The unguarded percentage-delta formula on a positive first value and a
zero second value evaluates to Infinity. -/
theorem delta_inf (a b : ℚ) (ha : 0 < a) (hb : b = 0) :
    jsMul (jsDiv (jsSub (.num a) (.num b)) (.num b)) (.num 100) = .inf := by
  subst hb
  rw [jsSub_num, sub_zero, jsDiv_num_zero a ha, jsMul_inf_num 100 (by norm_num)]

/-- Claim C6 (amended): the delta is the unguarded JavaScript division; when
the second datacenter's metric is zero it is not special-cased but is the
silently propagated Infinity (here: the water delta of any valid
configuration compared against the WUE-zero Finland site). -/
theorem comparison_div_zero_inf (e : SimulationEngine) (city : City) (w : Workload)
    (hc : e.currentCity = some city) (hw : e.currentWorkload = some w)
    (hwm : w ∈ WORKLOADS.map Prod.snd)
    (h0 : 0 ≤ e.currentHour) (h23 : e.currentHour ≤ 23) :
    (compareDatacenters e "arizona" "finland").toOption.map
      (fun p => p.1.comparison.waterDifference) = some JsNum.inf := by
  have hltd : e.currentHour.toNat < TIME_MODIFIERS.demandByHour.length := by
    have h24 : TIME_MODIFIERS.demandByHour.length = 24 := rfl
    omega
  obtain ⟨md, hmd, hmdm⟩ := timeGet_mem _ _ h0 hltd
  have hltw : e.currentHour.toNat < TIME_MODIFIERS.waterUsageByHour.length := by
    have h24 : TIME_MODIFIERS.waterUsageByHour.length = 24 := rfl
    omega
  obtain ⟨mw, hmw, hmwm⟩ := timeGet_mem _ _ h0 hltw
  have hmd0 := demandByHour_pos md hmdm
  have hmw0 := waterUsageByHour_pos mw hmwm
  obtain ⟨b, hb, hb0⟩ := sessionBaseKwh_num w hwm
  obtain ⟨el1, wa1, em1, hel1, hwa1, hem1, hrun1⟩ := runSimulation_configured
    { e with currentDatacenter := DATACENTERS.lookup "arizona" } city w DC_ARIZONA hc hw rfl
  obtain ⟨el2, wa2, em2, hel2, hwa2, hem2, hrun2⟩ := runSimulation_configured
    { { e with currentDatacenter := DATACENTERS.lookup "arizona" } with
      currentDatacenter := DATACENTERS.lookup "finland" } city w DC_FINLAND hc hw rfl
  dsimp only at hwa1 hwa2 hrun1 hrun2
  rw [calculateWater_configured { e with currentDatacenter := DATACENTERS.lookup "arizona" }
    w DC_ARIZONA hw rfl] at hwa1
  rw [calculateWater_configured { e with currentDatacenter := DATACENTERS.lookup "finland" }
    w DC_FINLAND hw rfl] at hwa2
  have hwa1v := Option.some.inj hwa1
  have hwa2v := Option.some.inj hwa2
  simp only [compareDatacenters, hrun1, hrun2, Except.toOption, Option.map_some]
  simp only [← hwa1v, ← hwa2v, hb, hmd, hmw, optNum, jsMul_num,
    DC_ARIZONA, DC_FINLAND]
  rw [delta_inf _ _ (by positivity) (by norm_num)]
  exact rfl

/-- Claim C6 witness: the silently propagated Infinity at a Dublin chatbot
configuration at hour 3. -/
theorem comparison_div_zero_inf_witness :
    (compareDatacenters (configure SimulationEngine.init
        { city := some "dublin", workload := some "chatbot",
          datacenter := some "ireland", hour := some 3 }) "arizona" "finland").toOption.map
      (fun p => p.1.comparison.waterDifference) = some JsNum.inf :=
  comparison_div_zero_inf
    (configure SimulationEngine.init
      { city := some "dublin", workload := some "chatbot",
        datacenter := some "ireland", hour := some 3 })
    CITY_DUBLIN W_CHATBOT rfl rfl (by simp [WORKLOADS]) (by decide) (by decide)

/-! Claim C9: Haversine distance properties. -/

/-- arctan of a nonnegative argument is nonnegative. -/
theorem arctan_nonneg_of_nonneg (x : ℝ) (hx : 0 ≤ x) : 0 ≤ Real.arctan x := by
  have h := Real.arctan_strictMono.monotone hx
  rwa [Real.arctan_zero] at h

/-- atan2 is nonnegative in the closed first quadrant. -/
theorem atan2_nonneg (y x : ℝ) (hy : 0 ≤ y) (hx : 0 ≤ x) : 0 ≤ atan2 y x := by
  unfold atan2
  rcases lt_or_eq_of_le hx with hx1 | hx1
  · rw [if_pos hx1]
    exact arctan_nonneg_of_nonneg _ (div_nonneg hy hx1.le)
  · subst hx1
    rw [if_neg (lt_irrefl 0), if_neg (lt_irrefl 0)]
    rcases lt_or_eq_of_le hy with hy1 | hy1
    · rw [if_pos hy1]
      positivity
    · subst hy1
      rw [if_neg (lt_irrefl 0), if_neg (lt_irrefl 0)]

/-- atan2 with a nonnegative second argument is at most a right angle. -/
theorem atan2_le_pi_div_two (y x : ℝ) (hx : 0 ≤ x) : atan2 y x ≤ Real.pi / 2 := by
  unfold atan2
  rcases lt_or_eq_of_le hx with hx1 | hx1
  · rw [if_pos hx1]
    exact (Real.arctan_lt_pi_div_two _).le
  · subst hx1
    rw [if_neg (lt_irrefl 0), if_neg (lt_irrefl 0)]
    rcases lt_trichotomy 0 y with hy1 | hy1 | hy1
    · rw [if_pos hy1]
    · subst hy1
      rw [if_neg (lt_irrefl 0), if_neg (lt_irrefl 0)]
      positivity
    · rw [if_neg (asymm hy1), if_pos hy1]
      have hpi := Real.pi_pos
      linarith

/-- The Haversine output form is between 0 and half the circumference. -/
theorem dist_form_bounds (a : ℝ) :
    0 ≤ (6371 : ℝ) * (2 * atan2 (Real.sqrt a) (Real.sqrt (1 - a))) ∧
    (6371 : ℝ) * (2 * atan2 (Real.sqrt a) (Real.sqrt (1 - a))) ≤ 6371 * Real.pi := by
  have h0 := atan2_nonneg (Real.sqrt a) (Real.sqrt (1 - a))
    (Real.sqrt_nonneg _) (Real.sqrt_nonneg _)
  have h1 := atan2_le_pi_div_two (Real.sqrt a) (Real.sqrt (1 - a)) (Real.sqrt_nonneg _)
  constructor <;> nlinarith [Real.pi_pos]

/-- Claim C9: for coordinates with latitudes in the geographic range, the
Haversine distance is symmetric, zero on coincident points, and bounded by
0 and half the Earth circumference 6371 pi, which lies strictly between
20014 and 20016 km (approximately 20015). -/
theorem calculateDistance_props (c1 c2 : Coord)
    (_hl1 : |c1.lat| ≤ 90) (_hl2 : |c2.lat| ≤ 90) :
    calculateDistance c1 c2 = calculateDistance c2 c1 ∧
    calculateDistance c1 c1 = 0 ∧
    0 ≤ calculateDistance c1 c2 ∧ calculateDistance c1 c2 ≤ 6371 * Real.pi ∧
    20014 < 6371 * Real.pi ∧ 6371 * Real.pi < 20016 := by
  refine ⟨?_, ?_, (dist_form_bounds _).1, (dist_form_bounds _).2, ?_, ?_⟩
  · have key : ∀ p q : Coord,
        Real.sin (toRad ((q.lat : ℝ) - (p.lat : ℝ)) / 2) *
            Real.sin (toRad ((q.lat : ℝ) - (p.lat : ℝ)) / 2) +
          Real.cos (toRad (p.lat : ℝ)) * Real.cos (toRad (q.lat : ℝ)) *
            Real.sin (toRad ((q.lng : ℝ) - (p.lng : ℝ)) / 2) *
            Real.sin (toRad ((q.lng : ℝ) - (p.lng : ℝ)) / 2)
        = Real.sin (toRad ((p.lat : ℝ) - (q.lat : ℝ)) / 2) *
            Real.sin (toRad ((p.lat : ℝ) - (q.lat : ℝ)) / 2) +
          Real.cos (toRad (q.lat : ℝ)) * Real.cos (toRad (p.lat : ℝ)) *
            Real.sin (toRad ((p.lng : ℝ) - (q.lng : ℝ)) / 2) *
            Real.sin (toRad ((p.lng : ℝ) - (q.lng : ℝ)) / 2) := by
      intro p q
      have h1 : toRad ((q.lat : ℝ) - (p.lat : ℝ)) / 2
          = -(toRad ((p.lat : ℝ) - (q.lat : ℝ)) / 2) := by
        unfold toRad
        ring
      have h2 : toRad ((q.lng : ℝ) - (p.lng : ℝ)) / 2
          = -(toRad ((p.lng : ℝ) - (q.lng : ℝ)) / 2) := by
        unfold toRad
        ring
      rw [h1, h2, Real.sin_neg, Real.sin_neg]
      ring
    simp only [calculateDistance]
    rw [key c1 c2]
  · simp [calculateDistance, toRad, atan2, Real.arctan_zero]
  · nlinarith [Real.pi_gt_d4]
  · nlinarith [Real.pi_lt_d4]

/-- Claim C9 witness: the distance properties at the Phoenix and Arizona
coordinates of the data tables. -/
theorem calculateDistance_props_witness :
    calculateDistance CITY_PHOENIX.coords DC_ARIZONA.coords
      = calculateDistance DC_ARIZONA.coords CITY_PHOENIX.coords ∧
    calculateDistance CITY_PHOENIX.coords CITY_PHOENIX.coords = 0 ∧
    0 ≤ calculateDistance CITY_PHOENIX.coords DC_ARIZONA.coords ∧
    calculateDistance CITY_PHOENIX.coords DC_ARIZONA.coords ≤ 6371 * Real.pi := by
  obtain ⟨h1, h2, h3, h4, -⟩ := calculateDistance_props CITY_PHOENIX.coords DC_ARIZONA.coords
    (by rw [abs_le]; constructor <;> norm_num [CITY_PHOENIX])
    (by rw [abs_le]; constructor <;> norm_num [DC_ARIZONA])
  exact ⟨h1, h2, h3, h4⟩

/-! Claim C4: the flow list of a full simulation. -/

/-- Electricity-flow intensities of every catalogued datacenter lie in
the unit interval. -/
theorem electricity_intensity_bounds : ∀ dc ∈ DATACENTERS.map Prod.snd,
    ∀ s ∈ dc.energy.sources,
    0 ≤ gridShare dc.energy.gridMix s.type ∧ gridShare dc.energy.gridMix s.type ≤ 1 := by
  intro dc hdc
  simp only [DATACENTERS, List.map_cons, List.map_nil] at hdc
  fin_cases hdc <;> intro s hs <;>
    simp only [DC_ARIZONA, DC_FINLAND, DC_SINGAPORE, DC_IRELAND] at hs <;>
    fin_cases hs <;>
    simp [gridShare, List.lookup, DC_ARIZONA, DC_FINLAND, DC_SINGAPORE, DC_IRELAND] <;>
    norm_num

/-- Every catalogued datacenter has an emissions-drift entry. -/
theorem drift_lookup : ∀ dc ∈ DATACENTERS.map Prod.snd,
    ∃ dr, EMISSIONS_DRIFT.lookup dc.id = some dr := by
  intro dc hdc
  simp only [DATACENTERS, List.map_cons, List.map_nil] at hdc
  fin_cases hdc <;> exact ⟨_, rfl⟩

/-- The water-flow intensity min(liters / 10, 1) is in the unit interval
for positive liters. -/
theorem waterflow_intensity_bounds (l : ℚ) (hl : 0 < l) :
    ∃ q : ℚ, jsMin (jsDiv (JsNum.num l) (JsNum.num 10)) (JsNum.num 1) = JsNum.num q ∧
      0 ≤ q ∧ q ≤ 1 := by
  refine ⟨min (l / 10) 1, ?_, le_min (by positivity) (by norm_num), min_le_right _ _⟩
  rw [jsDiv_num _ _ (by norm_num), jsMin_num]

/-- The emissions-flow intensity min(grams / 500, 1) is in the unit
interval for nonnegative grams. -/
theorem emissionflow_intensity_bounds (g : ℚ) (hg : 0 ≤ g) :
    ∃ q : ℚ, jsMin (jsDiv (JsNum.num g) (JsNum.num 500)) (JsNum.num 1) = JsNum.num q ∧
      0 ≤ q ∧ q ≤ 1 := by
  refine ⟨min (g / 500) 1, ?_, le_min (by positivity) (by norm_num), min_le_right _ _⟩
  rw [jsDiv_num _ _ (by norm_num), jsMin_num]

/-- Claim C4: the flows of a full simulation are, in this exact order, the
data flow with intensity 1, one electricity flow per power source with the
grid-mix share or the 0.1 fallback, a water flow exactly when liters are
positive with intensity min(liters / 10, 1), one emissions flow per drift
destination with intensity min(grams / 500, 1), one supply flow per
curated material with intensity 0.5, and e-waste flows for exactly the
first two e-waste table entries with intensity 0.3 — and every intensity
is a finite number in the interval from 0 to 1. -/
theorem generateFlows_spec (e : SimulationEngine) (city : City) (w : Workload)
    (dc : Datacenter) (r : SimulationResult)
    (hc : e.currentCity = some city) (hw : e.currentWorkload = some w)
    (hd : e.currentDatacenter = some dc)
    (hwm : w ∈ WORKLOADS.map Prod.snd) (hdm : dc ∈ DATACENTERS.map Prod.snd)
    (h0 : 0 ≤ e.currentHour) (h23 : e.currentHour ≤ 23)
    (hr : runSimulation e = .ok r) :
    (r.flows =
      [ { type := "data", fromCoord := city.coords, toCoord := dc.coords,
          label := "Request", intensity := JsNum.num 1 } ]
      ++ dc.energy.sources.map (fun s =>
          { type := "electricity", fromCoord := s.coords, toCoord := dc.coords,
            label := s.name, sourceType := some s.type,
            intensity := JsNum.num (gridShare dc.energy.gridMix s.type) })
      ++ (if jsGt r.water.liters (JsNum.num 0) then
          [ { type := "water", fromCoord := r.water.sourceCoords, toCoord := dc.coords,
              label := r.water.source,
              intensity := jsMin (jsDiv r.water.liters (JsNum.num 10)) (JsNum.num 1),
              stressLevel := some r.water.stressLevel } ] else [])
      ++ (match r.emissions.drift with
          | some drift => drift.destinations.map (fun dest =>
              { type := "emissions", fromCoord := dc.coords, toCoord := dest.coords,
                label := "CO₂ drift to " ++ dest.name,
                intensity := jsMin (jsDiv r.emissions.grams (JsNum.num 500)) (JsNum.num 1) })
          | none => [])
      ++ r.materials.materials.map (fun km =>
          { type := "materials", subtype := some "supply",
            fromCoord := km.2.sourceCoords, toCoord := dc.coords,
            label := km.2.name, intensity := JsNum.num 0.5 })
      ++ (r.materials.ewasteDestinations.take 2).map (fun dest =>
          { type := "materials", subtype := some "ewaste",
            fromCoord := dc.coords, toCoord := dest.coords,
            label := "E-waste to " ++ dest.name, intensity := JsNum.num 0.3 })) ∧
    r.materials.ewasteDestinations = EWASTE.map (fun kv => kv.2) ∧
    (r.materials.ewasteDestinations.take 2).length = 2 ∧
    ∀ f ∈ r.flows, ∃ q : ℚ, f.intensity = JsNum.num q ∧ 0 ≤ q ∧ q ≤ 1 := by
  obtain ⟨el, wa, em, hel, hwa, hem, hrun⟩ := runSimulation_configured e city w dc hc hw hd
  rw [hrun] at hr
  injection hr with hr
  subst hr
  rw [calculateElectricity_configured e w dc hw hd] at hel
  rw [calculateWater_configured e w dc hw hd] at hwa
  rw [calculateEmissions_configured e w dc hw hd] at hem
  have hel2 := Option.some.inj hel
  have hwa2 := Option.some.inj hwa
  have hem2 := Option.some.inj (Except.ok.inj hem)
  subst hel2
  subst hwa2
  subst hem2
  refine ⟨rfl, rfl, rfl, ?_⟩
  obtain ⟨b, hb, hb0⟩ := sessionBaseKwh_num w hwm
  have h24d : TIME_MODIFIERS.demandByHour.length = 24 := rfl
  have h24w : TIME_MODIFIERS.waterUsageByHour.length = 24 := rfl
  have h24c : TIME_MODIFIERS.carbonIntensityByHour.length = 24 := rfl
  obtain ⟨md, hmd, hmdm⟩ := timeGet_mem TIME_MODIFIERS.demandByHour e.currentHour h0 (by omega)
  obtain ⟨mw, hmw, hmwm⟩ := timeGet_mem TIME_MODIFIERS.waterUsageByHour e.currentHour h0 (by omega)
  obtain ⟨mc, hmc, hmcm⟩ := timeGet_mem TIME_MODIFIERS.carbonIntensityByHour e.currentHour h0 (by omega)
  have hmd0 := demandByHour_pos md hmdm
  have hmw0 := waterUsageByHour_pos mw hmwm
  have hmc0 := carbonIntensityByHour_pos mc hmcm
  obtain ⟨hpue, hheat, hci, hwue⟩ := datacenter_table_facts dc hdm
  obtain ⟨dr, hdr⟩ := drift_lookup dc hdm
  intro f hf
  simp only [generateFlows, hb, hmd, hmw, hmc, hdr, optNum, jsMul_num, jsGt_num] at hf
  simp only [List.mem_append] at hf
  rcases hf with (((((hf | hf) | hf) | hf) | hf) | hf)
  · rw [List.mem_singleton] at hf
    subst hf
    exact ⟨1, rfl, by norm_num, by norm_num⟩
  · rw [List.mem_map] at hf
    obtain ⟨s, hs, hfe⟩ := hf
    subst hfe
    obtain ⟨hq0, hq1⟩ := electricity_intensity_bounds dc hdm s hs
    exact ⟨gridShare dc.energy.gridMix s.type, rfl, hq0, hq1⟩
  · split at hf
    · rw [List.mem_singleton] at hf
      subst hf
      rename_i hcond
      exact waterflow_intensity_bounds _ (of_decide_eq_true hcond)
    · exact absurd hf (List.not_mem_nil f)
  · rw [List.mem_map] at hf
    obtain ⟨dest, hdest, hfe⟩ := hf
    subst hfe
    exact emissionflow_intensity_bounds _ (by positivity)
  · rw [List.mem_map] at hf
    obtain ⟨km, hkm, hfe⟩ := hf
    subst hfe
    exact ⟨0.5, rfl, by norm_num, by norm_num⟩
  · rw [List.mem_map] at hf
    obtain ⟨dest, hdest, hfe⟩ := hf
    subst hfe
    exact ⟨0.3, rfl, by norm_num, by norm_num⟩

/-- Claim C4 witness: the intensities of the thirteen flows of the Phoenix
image scenario, in order: the data flow, three electricity flows, the
water flow, two emissions flows, four supply flows and two e-waste
flows, all finite and within the unit interval. -/
theorem generateFlows_spec_witness :
    (runSimulation phoenixImageEngine).toOption.map
      (fun r => r.flows.map (fun f => f.intensity)) =
    some [JsNum.num 1, JsNum.num 0.28, JsNum.num 0.1, JsNum.num 0.15,
          JsNum.num 0.16443, JsNum.num 0.375144, JsNum.num 0.375144,
          JsNum.num 0.5, JsNum.num 0.5, JsNum.num 0.5, JsNum.num 0.5,
          JsNum.num 0.3, JsNum.num 0.3] := by
  obtain ⟨el, wa, em, hel, hwa, hem, hrun⟩ := runSimulation_configured phoenixImageEngine
    CITY_PHOENIX W_IMAGE DC_ARIZONA rfl rfl rfl
  obtain ⟨hfl, -, -, -⟩ := generateFlows_spec phoenixImageEngine CITY_PHOENIX W_IMAGE
    DC_ARIZONA _ rfl rfl rfl (by simp [WORKLOADS]) (by simp [DATACENTERS])
    (by decide) (by decide) hrun
  rw [calculateElectricity_configured phoenixImageEngine W_IMAGE DC_ARIZONA rfl rfl] at hel
  rw [calculateWater_configured phoenixImageEngine W_IMAGE DC_ARIZONA rfl rfl] at hwa
  rw [calculateEmissions_configured phoenixImageEngine W_IMAGE DC_ARIZONA rfl rfl] at hem
  have hel2 := Option.some.inj hel
  have hwa2 := Option.some.inj hwa
  have hem2 := Option.some.inj (Except.ok.inj hem)
  subst hel2
  subst hwa2
  subst hem2
  rw [hrun]
  simp [hfl, Except.toOption, generateFlows, gridShare, List.lookup, jsMul, jsDiv, jsSub,
    jsMin, jsGt, optNum, timeGet, getMaterials, MATERIALS, EWASTE, DC_ARIZONA, W_IMAGE,
    TIME_MODIFIERS, sessionBaseKwh, phoenixImageEngine, configure, truthy,
    EMISSIONS_DRIFT, min_def]
  norm_num

end GhostNetwork
